import Mathlib

/-!
Shallow embedding of the flash-operation orchestration and progress pipeline of
`src/src/flash_controller.py` (datalogger-esp-flasher).

Modelling conventions:
* Python strings are Lean `String`s; `s.strip()`, `s.lower()`, `s.split(sep)`,
  `pat in s` and `int(s, 16)` are embedded below as `pyStrip`, `pyLower`,
  `pySplit`, `strContainsSub` and `pyIntHex` (all structurally recursive so
  they evaluate inside the kernel).
* Python float arithmetic `int((a / b) * c)` on integer inputs is modelled
  exactly by rational arithmetic with truncation toward zero, i.e.
  `Int.tdiv (a * c) b` (Python `int()` truncates toward zero).
* Progress callbacks are modelled by collecting the emitted
  `(percent, message)` events in a list, in emission order.
* `subprocess` results (exit codes, availability of `pio`/`esptool`,
  file existence) are abstract parameters of the embedded functions.
-/

/-- One progress callback invocation: `progress_callback(percent, message)`. -/
structure ProgressEvent where
  percent : Int
  message : String
deriving DecidableEq, Repr

/-- The `FlashResult` dataclass of `flash_controller.py`.  Wall-clock duration
is modelled in abstract time units as a `Nat`. -/
structure FlashResult where
  success : Bool
  message : String
  duration : Nat
  chipType : Option String := none
deriving DecidableEq, Repr

/-- The arguments of `FlashController.flash_firmware`, gathered in a record
(the Python function takes them as parameters). -/
structure FlashRequest where
  port : String
  firmwarePath : String
  baudRate : Nat
  flashAddress : Nat
  eraseAll : Bool
  verify : Bool
  bootloaderPath : Option String := none
  partitionsPath : Option String := none
deriving DecidableEq, Repr

/-- Boolean test that `pat` occurs at the head of `s` (character lists). -/
def charsPre : List Char → List Char → Bool
  | [], _ => true
  | _ :: _, [] => false
  | p :: ps, c :: cs => p == c && charsPre ps cs

/-- Boolean substring occurrence on character lists; models Python `pat in s`. -/
def charsHasSub (pat : List Char) : List Char → Bool
  | [] => pat.isEmpty
  | c :: cs => charsPre pat (c :: cs) || charsHasSub pat cs

/-- Models the Python membership test `pat in s` on strings. -/
def strContainsSub (s pat : String) : Bool := charsHasSub pat.data s.data

/-- Fuel-driven splitter; at each position either consumes a match of `sep`
and cuts, or moves one character into the accumulator.  Fuel is the length of
the scanned list, which bounds the number of steps. -/
def splitGo (sep : List Char) : Nat → List Char → List Char → List (List Char)
  | _, [], acc => [acc.reverse]
  | 0, rest, acc => [acc.reverse ++ rest]
  | fuel + 1, c :: cs, acc =>
    if charsPre sep (c :: cs) then
      acc.reverse :: splitGo sep fuel (cs.drop (sep.length - 1)) []
    else
      splitGo sep fuel cs (c :: acc)

/-- Models Python `s.split(sep)` for a non-empty separator (the only way the
source uses it): leftmost non-overlapping matches, keeping empty pieces. -/
def pySplit (s sep : String) : List String :=
  if sep.data.isEmpty then [s]
  else (splitGo sep.data s.data.length s.data []).map (fun cs => String.mk cs)

/-- ASCII whitespace recognizer for `pyStrip`. -/
def isSpaceChar (c : Char) : Bool :=
  c == ' ' || c == '\t' || c == '\n' || c == '\r'

/-- Models Python `s.strip()` (ASCII whitespace at both ends). -/
def pyStrip (s : String) : String :=
  String.mk (((s.data.dropWhile isSpaceChar).reverse.dropWhile isSpaceChar).reverse)

/-- ASCII lower-casing of one character. -/
def asciiLower (c : Char) : Char :=
  if 65 ≤ c.toNat ∧ c.toNat ≤ 90 then Char.ofNat (c.toNat + 32) else c

/-- Models Python `s.lower()` on ASCII strings. -/
def pyLower (s : String) : String := String.mk (s.data.map asciiLower)

/-- Value of one hexadecimal digit character, if it is one. -/
def hexVal (c : Char) : Option Nat :=
  if 48 ≤ c.toNat ∧ c.toNat ≤ 57 then some (c.toNat - 48)
  else if 97 ≤ c.toNat ∧ c.toNat ≤ 102 then some (c.toNat - 87)
  else if 65 ≤ c.toNat ∧ c.toNat ≤ 70 then some (c.toNat - 55)
  else none

/-- Horner accumulation of hex digits; fails on the first non-digit. -/
def hexAcc : List Char → Nat → Option Nat
  | [], acc => some acc
  | c :: cs, acc =>
    match hexVal c with
    | some v => hexAcc cs (16 * acc + v)
    | none => none

/-- Parses a non-empty run of hex digits; `none` on empty or invalid input. -/
def parseHexDigits : List Char → Option Nat
  | [] => none
  | c :: cs => hexAcc (c :: cs) 0

/-- Drops one optional `0x` / `0X` base marker, as `int(s, 16)` accepts. -/
def dropHexMark : List Char → List Char
  | '0' :: 'x' :: rest => rest
  | '0' :: 'X' :: rest => rest
  | cs => cs

/-- Models Python `int(s, 16)`: optional surrounding whitespace, optional
sign, optional `0x` marker, then hex digits; `none` models `ValueError`.
(Digit-group underscores, which never occur in esptool output, are not
accepted.) -/
def pyIntHex (s : String) : Option Int :=
  match (pyStrip s).data with
  | '-' :: rest => (parseHexDigits (dropHexMark rest)).map (fun n => -(n : Int))
  | '+' :: rest => (parseHexDigits (dropHexMark rest)).map (fun n => (n : Int))
  | rest => (parseHexDigits (dropHexMark rest)).map (fun n => (n : Int))

/-- Models Python `f'{n:x}'`: lowercase hexadecimal digits of `n`. -/
def natToHex (n : Nat) : String := String.mk (Nat.toDigits 16 n)

/-- The address-extraction expression of both line loops:
`line.split('Writing at 0x')[1].split('...')[0]`. -/
def extractAddr (line : String) : String :=
  (pySplit ((pySplit line "Writing at 0x").getD 1 "") "...").getD 0 ""

/-- One iteration of the output-line loop of
`FlashController._flash_with_esptool_subprocess` (lines 342-389): given the
request `flash_address` `fa`, the stored `_firmware_size` `size`, and the
current value `p` of the local `progress` variable, returns the new value of
`progress` and the list of events emitted for this (already stripped) line. -/
def esptoolLineStep (fa size : Nat) (p : Int) (line : String) : Int × List ProgressEvent :=
  if strContainsSub line "Writing at 0x" then
    match pyIntHex (extractAddr line) with
    | some addr =>
      if 0 < size then
        (p, [⟨min (((addr - (fa : Int)) * 100).tdiv (size : Int)) 99,
             "Writing firmware... " ++
               toString (min (((addr - (fa : Int)) * 100).tdiv (size : Int)) 99) ++ "%"⟩])
      else if (fa : Int) < addr then
        (min (((addr - (fa : Int)) * 100).tdiv 65536) 99,
         [⟨min (((addr - (fa : Int)) * 100).tdiv 65536) 99,
           "Writing firmware... " ++
             toString (min (((addr - (fa : Int)) * 100).tdiv 65536) 99) ++ "%"⟩])
      else (p, [])
    | none => (min (p + 2) 99, [⟨min (p + 2) 99, "Writing firmware..."⟩])
  else if strContainsSub line "Hash of data verified" then
    (p, [⟨95, "Verifying flash..."⟩])
  else if strContainsSub line "Hard resetting via RTS pin" then
    (p, [⟨100, "Flash completed!"⟩])
  else if strContainsSub line "Connecting..." then
    (p, [⟨35, "Connecting to device..."⟩])
  else if strContainsSub line "Chip is" then
    (p, [⟨38, "Detected: " ++ line⟩])
  else (p, [])

/-- One iteration of the output-line loop of
`FlashController._flash_with_platformio` (lines 531-569).  The application
base address is the hardcoded constant `0x10000`; `size` is the stored
`_firmware_size` and `p` the local `progress` step counter. -/
def pioLineStep (size : Nat) (p : Int) (line : String) : Int × List ProgressEvent :=
  if strContainsSub line "Writing at 0x" then
    match pyIntHex (extractAddr line) with
    | some addr =>
      if 0 < size then
        (p, [⟨min (((addr - 65536) * 100).tdiv (size : Int)) 99,
             "Writing firmware... " ++
               toString (min (((addr - 65536) * 100).tdiv (size : Int)) 99) ++ "%"⟩])
      else (min (p + 2) 99, [⟨min (p + 2) 99, "Writing firmware..."⟩])
    | none => (min (p + 2) 99, [⟨min (p + 2) 99, "Writing firmware..."⟩])
  else if strContainsSub line "Hash of data verified" then
    (p, [⟨100, "Flash completed!"⟩])
  else if strContainsSub line "Hard resetting" then
    (p, [⟨100, "Flash completed!"⟩])
  else if strContainsSub line "Connecting" then
    (p, [⟨65, "Connecting to ESP32..."⟩])
  else (p, [])

/-- The esptool-subprocess output loop over a whole session: each raw line is
stripped and processed by `esptoolLineStep`; returns the final `progress`
value and all events in emission order. -/
def esptoolLoop (fa size : Nat) : List String → Int → Int × List ProgressEvent
  | [], p => (p, [])
  | l :: ls, p =>
    ((esptoolLoop fa size ls (esptoolLineStep fa size p (pyStrip l)).1).1,
     (esptoolLineStep fa size p (pyStrip l)).2 ++
       (esptoolLoop fa size ls (esptoolLineStep fa size p (pyStrip l)).1).2)

/-- The PlatformIO output loop over a whole session, analogously. -/
def pioLoop (size : Nat) : List String → Int → Int × List ProgressEvent
  | [], p => (p, [])
  | l :: ls, p =>
    ((pioLoop size ls (pioLineStep size p (pyStrip l)).1).1,
     (pioLineStep size p (pyStrip l)).2 ++
       (pioLoop size ls (pioLineStep size p (pyStrip l)).1).2)

/-- Which backend helpers a `flash_firmware` call invoked, in order. -/
inductive BackendKind where
  | platformio
  | esptoolSub
deriving DecidableEq, Repr

/-- The fallback trigger test of `flash_firmware` (line 140):
`not result.success and "platformio not found" in result.message.lower()`. -/
def toolUnavailable (r : FlashResult) : Bool :=
  !r.success && strContainsSub (pyLower r.message) "platformio not found"

/-- The assignment `result.duration = duration` performed by `flash_firmware`
before returning. -/
def withDuration (r : FlashResult) (d : Nat) : FlashResult :=
  { r with duration := d }

/-- The result returned by `_flash_with_platformio` when `pio --version`
exits non-zero (lines 431-436). -/
def platformioUnavailableResult : FlashResult :=
  { success := false, message := "PlatformIO not found", duration := 0, chipType := none }

/-- The orchestration logic of `FlashController.flash_firmware`
(lines 118-148): validate that the firmware file exists, run the PlatformIO
backend, fall back to the esptool subprocess backend exactly when the primary
result message signals "platformio not found", and stamp the total wall-clock
duration on whichever result is returned.  The two backend attempts are
abstracted by their results `primaryRes` / `fallbackRes`; file existence by
`fileEx`; elapsed wall-clock time by `elapsed`.  The second component records
which backends were invoked. -/
def flash_firmware (fileEx : String → Bool) (primaryRes fallbackRes : FlashResult)
    (elapsed : Nat) (req : FlashRequest) : FlashResult × List BackendKind :=
  if fileEx req.firmwarePath = false then
    ({ success := false, message := "Firmware file not found: " ++ req.firmwarePath,
       duration := 0, chipType := none }, [])
  else if toolUnavailable primaryRes = true then
    (withDuration fallbackRes elapsed, [BackendKind.platformio, BackendKind.esptoolSub])
  else
    (withDuration primaryRes elapsed, [BackendKind.platformio])

/-- The esptool write command built by `_flash_with_esptool_subprocess`
(lines 269-321), with `sys.executable` abstracted as `python`.  The single
(address, file) segment uses `f'0x{flash_address:x}'`. -/
def esptoolWriteCmd (python port : String) (baud fa : Nat) (fw : String) : List String :=
  [python, "-m", "esptool", "--port", port, "--baud", toString baud,
   "--before", "default-reset", "--after", "hard-reset", "write-flash",
   "--flash-mode", "dio", "--flash-freq", "40m", "--flash-size", "detect",
   "0x" ++ natToHex fa, fw]

/-- One optional companion segment of the PlatformIO command (lines 500-504):
`if path and Path(path).exists(): flash_cmd.extend([addr, path])`.  Python
truthiness of the path is the non-empty-string test. -/
def companionSeg (ex : String → Bool) (addr : String) : Option String → List String
  | none => []
  | some s => if s ≠ "" ∧ ex s = true then [addr, s] else []

/-- The segment suffix of the PlatformIO write command (lines 499-506):
bootloader at 0x0000 and partition table at 0x8000 when supplied and
existing, then always the application image at the constant 0x10000. -/
def pioSegs (ex : String → Bool) (fw : String) (bp pp : Option String) : List String :=
  companionSeg ex "0x0000" bp ++ companionSeg ex "0x8000" pp ++ ["0x10000", fw]

/-- The full PlatformIO write command (lines 491-506).  The `flashAddress`
parameter mirrors the Python signature of `_flash_with_platformio`; the
command construction never uses it, exactly as in the source. -/
def pioFlashCmd (ex : String → Bool) (port : String) (baud flashAddress : Nat)
    (fw : String) (bp pp : Option String) : List String :=
  ["pio", "pkg", "exec", "--package", "tool-esptoolpy", "--", "esptool.py",
   "--port", port, "--baud", toString baud, "--before", "default_reset",
   "--after", "hard_reset", "write_flash", "--flash_mode", "dio",
   "--flash_freq", "80m", "--flash_size", "detect"] ++ pioSegs ex fw bp pp

/-- The `FlashController.erase_flash` entry point (lines 594-660), returning
the emitted progress events and the result.  `esptoolAvailable` models the
`if esptool:` import guard; `moduleOk` models whether the esptool module
calls succeed (an exception is modelled at `detect_chip`); `returncode` is
the subprocess exit code of the fallback path.  Only event and result
structure is modelled; the erase subcommand itself is opaque. -/
def erase_flash (esptoolAvailable moduleOk : Bool) (chip : String)
    (returncode : Nat) (stderrOut errDesc : String) (elapsed : Nat) :
    List ProgressEvent × FlashResult :=
  if esptoolAvailable then
    if moduleOk then
      ([⟨0, "Connecting to device..."⟩, ⟨20, "Erasing flash..."⟩,
        ⟨100, "Flash erased successfully!"⟩],
       { success := true, message := "Flash erased successfully",
         duration := elapsed, chipType := some chip })
    else
      ([⟨0, "Connecting to device..."⟩],
       { success := false, message := "Erase operation failed: " ++ errDesc,
         duration := elapsed, chipType := none })
  else
    ([⟨0, "Connecting to device..."⟩],
     if returncode == 0 then
       { success := true, message := "Flash erased successfully",
         duration := elapsed, chipType := none }
     else
       { success := false, message := "Erase failed: " ++ stderrOut,
         duration := elapsed, chipType := none })

/-- Boolean bound check over the percents of an event list. -/
def percentsLe (bound : Int) : List ProgressEvent → Bool
  | [] => true
  | e :: rest => decide (e.percent ≤ bound) && percentsLe bound rest

/-- Boolean test that a list of percents is non-decreasing. -/
def nondecInt : List Int → Bool
  | [] => true
  | [_] => true
  | a :: b :: rest => decide (a ≤ b) && nondecInt (b :: rest)

/-- Truncating division agrees with flooring division on a non-negative
dividend and a `Nat` divisor. -/
theorem tdiv_eq_fdiv_of_nonneg (a : Int) (n : Nat) (ha : 0 ≤ a) :
    a.tdiv (n : Int) = a.fdiv (n : Int) := by
  obtain ⟨m, rfl⟩ := Int.eq_ofNat_of_zero_le ha
  cases m with
  | zero => simp [Int.zero_tdiv, Int.zero_fdiv]
  | succ k => rfl

/-- `percentsLe` distributes over list concatenation. -/
theorem percentsLe_append (b : Int) (xs ys : List ProgressEvent) :
    percentsLe b (xs ++ ys) = (percentsLe b xs && percentsLe b ys) := by
  induction xs with
  | nil => simp [percentsLe]
  | cons e rest ih => simp [percentsLe, ih, Bool.and_assoc]

/-- One esptool-subprocess line step keeps the `progress` counter at most 99
and emits only percents at most 100. -/
theorem esptoolLineStep_le (fa size : Nat) (p : Int) (l : String) (hp : p ≤ 99) :
    (esptoolLineStep fa size p l).1 ≤ 99 ∧
      percentsLe 100 (esptoolLineStep fa size p l).2 = true := by
  unfold esptoolLineStep
  repeat' split
  all_goals simp_all [percentsLe, decide_eq_true_eq]

/-- One PlatformIO line step keeps the `progress` counter at most 99 and
emits only percents at most 100. -/
theorem pioLineStep_le (size : Nat) (p : Int) (l : String) (hp : p ≤ 99) :
    (pioLineStep size p l).1 ≤ 99 ∧
      percentsLe 100 (pioLineStep size p l).2 = true := by
  unfold pioLineStep
  repeat' split
  all_goals simp_all [percentsLe, decide_eq_true_eq]

/-- Every event of an esptool-subprocess session has percent at most 100. -/
theorem esptoolLoop_le (fa size : Nat) (lines : List String) (p : Int) (hp : p ≤ 99) :
    percentsLe 100 (esptoolLoop fa size lines p).2 = true := by
  induction lines generalizing p with
  | nil => rfl
  | cons l ls ih =>
    have h := esptoolLineStep_le fa size p (pyStrip l) hp
    simp only [esptoolLoop, percentsLe_append, Bool.and_eq_true]
    exact ⟨h.2, ih _ h.1⟩

/-- Every event of a PlatformIO session has percent at most 100. -/
theorem pioLoop_le (size : Nat) (lines : List String) (p : Int) (hp : p ≤ 99) :
    percentsLe 100 (pioLoop size lines p).2 = true := by
  induction lines generalizing p with
  | nil => rfl
  | cons l ls ih =>
    have h := pioLineStep_le size p (pyStrip l) hp
    simp only [pioLoop, percentsLe_append, Bool.and_eq_true]
    exact ⟨h.2, ih _ h.1⟩

/-- Claim C1 (corrected): the line parsers perform no maximum-percent
tracking.  The fixed-percent patterns emit their constants unconditionally,
whatever the current progress state: `Connecting...` always emits 35 and
`Chip is` always emits 38 in the esptool-subprocess loop, so the session
`["Chip is ...", "Connecting..."]` emits the decreasing percent sequence
`[38, 35]`. -/
theorem C1_fixed_percent_unconditional (fa size : Nat) (p : Int) :
    (esptoolLineStep fa size p "Connecting...").2 =
      [⟨35, "Connecting to device..."⟩] ∧
    (esptoolLineStep fa size p "Chip is ESP32-S3 (QFN56)").2 =
      [⟨38, "Detected: Chip is ESP32-S3 (QFN56)"⟩] ∧
    (esptoolLoop fa size ["Chip is ESP32-S3 (QFN56)", "Connecting..."] p).2.map
      (fun e => e.percent) = [38, 35] :=
  ⟨rfl, rfl, rfl⟩

/-- Claim C1 counterexample: within one esptool-subprocess session, the line
sequence `["Chip is ESP32-S3 (QFN56)", "Connecting..."]` produces the percent
sequence `[38, 35]`, which is not non-decreasing: the fixed 35 of
`Connecting...` is lower than the 38 already emitted. -/
theorem C1_counterexample :
    nondecInt ((esptoolLoop 4096 10000 ["Chip is ESP32-S3 (QFN56)", "Connecting..."] 40).2.map
      (fun e => e.percent)) = false := by decide

/-- Claim C2 (confirmed): `flash_firmware` invokes the fallback backend if
and only if the primary result signals that PlatformIO could not be launched
(`success = false` and message containing "platformio not found" after
lower-casing); in that case exactly one fallback attempt runs and its result,
stamped with the aggregated duration, is returned; otherwise the primary's
result is returned with no fallback attempt. -/
theorem C2_fallback_dispatch (fileEx : String → Bool) (pr fb : FlashResult)
    (el : Nat) (req : FlashRequest) (h : fileEx req.firmwarePath = true) :
    (toolUnavailable pr = true →
      flash_firmware fileEx pr fb el req =
        (withDuration fb el, [BackendKind.platformio, BackendKind.esptoolSub])) ∧
    (toolUnavailable pr = false →
      flash_firmware fileEx pr fb el req =
        (withDuration pr el, [BackendKind.platformio])) := by
  constructor <;> intro ht <;> simp [flash_firmware, h, ht]

/-- Claim C2 witness: with an existing firmware file and a primary result of
"PlatformIO not found", the fallback result (duration aggregated to 7) is
returned after both backends ran. -/
theorem C2_witness :
    (fun _ : String => true) "fw.bin" = true ∧
    flash_firmware (fun _ => true) platformioUnavailableResult
        { success := true, message := "Firmware flashed successfully",
          duration := 0, chipType := none } 7
        { port := "COM3", firmwarePath := "fw.bin", baudRate := 460800,
          flashAddress := 4096, eraseAll := false, verify := true,
          bootloaderPath := none, partitionsPath := none } =
      ({ success := true, message := "Firmware flashed successfully",
         duration := 7, chipType := none },
       [BackendKind.platformio, BackendKind.esptoolSub]) := by
  refine ⟨rfl, ?_⟩
  rw [(C2_fallback_dispatch (fun _ => true) platformioUnavailableResult
    { success := true, message := "Firmware flashed successfully",
      duration := 0, chipType := none } 7
    { port := "COM3", firmwarePath := "fw.bin", baudRate := 460800,
      flashAddress := 4096, eraseAll := false, verify := true,
      bootloaderPath := none, partitionsPath := none } rfl).1 (by decide)]
  rfl

/-- Claim C8 (confirmed): when the firmware file does not exist,
`flash_firmware` returns `success = false`, duration exactly 0, and a message
naming the missing file, and invokes no backend. -/
theorem C8_missing_firmware (fileEx : String → Bool) (pr fb : FlashResult)
    (el : Nat) (req : FlashRequest) (h : fileEx req.firmwarePath = false) :
    flash_firmware fileEx pr fb el req =
      ({ success := false, message := "Firmware file not found: " ++ req.firmwarePath,
         duration := 0, chipType := none }, []) := by
  simp [flash_firmware, h]

/-- Claim C8 witness: a concrete call with a non-existent firmware path
returns the file-not-found result with zero duration and an empty backend
invocation list. -/
theorem C8_witness :
    (fun _ : String => false) "missing.bin" = false ∧
    flash_firmware (fun _ => false) platformioUnavailableResult
        platformioUnavailableResult 9
        { port := "COM7", firmwarePath := "missing.bin", baudRate := 460800,
          flashAddress := 4096, eraseAll := false, verify := true,
          bootloaderPath := none, partitionsPath := none } =
      ({ success := false, message := "Firmware file not found: missing.bin",
         duration := 0, chipType := none }, []) := by
  refine ⟨rfl, ?_⟩
  rw [C8_missing_firmware (fun _ => false) platformioUnavailableResult
    platformioUnavailableResult 9
    { port := "COM7", firmwarePath := "missing.bin", baudRate := 460800,
      flashAddress := 4096, eraseAll := false, verify := true,
      bootloaderPath := none, partitionsPath := none } rfl]
  rfl

/-- Claim C3 (corrected): every progress event emitted by either output-line
loop carries a percent of at most 100 (the byte-address computations are
clamped above by `min · 99` and all fixed percents are at most 100), provided
the incoming step counters are at most 99 as they are at both loop entries
(40 and 0 respectively).  The lower bound 0 claimed by the specification does
not hold: see the counterexample. -/
theorem C3_percent_upper_bound (fa size : Nat) (lines : List String) (p q : Int)
    (hp : p ≤ 99) (hq : q ≤ 99) :
    percentsLe 100 (esptoolLoop fa size lines p).2 = true ∧
    percentsLe 100 (pioLoop size lines q).2 = true :=
  ⟨esptoolLoop_le fa size lines p hp, pioLoop_le size lines q hq⟩

/-- Claim C3 witness: with the initial counters 40 and 0 and a session
containing a segment address below the application base, every emitted
percent is at most 100. -/
theorem C3_witness :
    ((40 : Int) ≤ 99 ∧ (0 : Int) ≤ 99) ∧
    (percentsLe 100 (esptoolLoop 4096 204800 ["Writing at 0x00000000... (3 %)"] 40).2 = true ∧
     percentsLe 100 (pioLoop 204800 ["Writing at 0x00000000... (3 %)"] 0).2 = true) :=
  ⟨⟨by norm_num, by norm_num⟩,
   C3_percent_upper_bound 4096 204800 ["Writing at 0x00000000... (3 %)"] 40 0
     (by norm_num) (by norm_num)⟩

/-- Claim C3 counterexample: in the PlatformIO loop the line
`Writing at 0x00000000...` (a bootloader-segment address, below the hardcoded
base 0x10000) with firmware size 204800 produces the percent -32, which is
negative — the claimed lower clamp at 0 does not exist in the code. -/
theorem C3_counterexample :
    (pioLineStep 204800 0 "Writing at 0x00000000... (3 %)").2.map (fun e => e.percent) =
      [-32] ∧ (-32 : Int) < 0 := by
  exact ⟨by decide, by decide⟩

/-- Claim C4 (corrected): with no companion files, the fallback
esptool-subprocess write command ends in exactly one (address, file) segment
whose address is `f'0x{flash_address:x}'` from the request; the primary
PlatformIO command instead always ends in the single segment
`['0x10000', firmware]` and is entirely independent of the request's
`flash_address`. -/
theorem C4_segment_addresses (python port fw : String) (baud fa fb2 : Nat)
    (ex : String → Bool) :
    (esptoolWriteCmd python port baud fa fw).drop 18 = ["0x" ++ natToHex fa, fw] ∧
    pioSegs ex fw none none = ["0x10000", fw] ∧
    pioFlashCmd ex port baud fa fw none none = pioFlashCmd ex port baud fb2 fw none none :=
  ⟨rfl, rfl, rfl⟩

/-- Claim C4 counterexample: for a request with the default
`flash_address = 0x1000` and no companion files, the primary PlatformIO
command's only segment address is the constant "0x10000", not the request's
hex-formatted address "0x1000". -/
theorem C4_counterexample :
    pioSegs (fun _ => false) "fw.bin" none none = ["0x10000", "fw.bin"] ∧
    "0x" ++ natToHex 4096 = "0x1000" ∧ ("0x10000" : String) ≠ "0x1000" := by
  exact ⟨by decide, by decide, by decide⟩

/-- Claim C5 (corrected): for a `Writing at 0x` line whose address parses and
is at least the base address, with positive known firmware size, the
esptool-subprocess loop emits exactly one event whose percent is
`floor((address - base) * 100 / size)` clamped to at most 99; address
arithmetic alone therefore never reaches 100.  (For addresses below the base
the code truncates toward zero instead of flooring: see the
counterexample.) -/
theorem C5_percent_formula (fa size : Nat) (p : Int) (line : String) (addr : Int)
    (hsz : 0 < size) (hw : strContainsSub line "Writing at 0x" = true)
    (hparse : pyIntHex (extractAddr line) = some addr) (hge : (fa : Int) ≤ addr) :
    (esptoolLineStep fa size p line).2.map (fun e => e.percent) =
      [min (((addr - (fa : Int)) * 100).fdiv (size : Int)) 99] ∧
    min (((addr - (fa : Int)) * 100).fdiv (size : Int)) 99 ≤ 99 := by
  have hnn : 0 ≤ (addr - (fa : Int)) * 100 :=
    mul_nonneg (sub_nonneg.mpr hge) (by norm_num)
  have htd := tdiv_eq_fdiv_of_nonneg ((addr - (fa : Int)) * 100) size hnn
  constructor
  · simp [esptoolLineStep, hw, hparse, hsz, htd]
  · exact min_le_right _ _

/-- Claim C5 witness: the specification's own example — line
`Writing at 0x2710`, base 0x1000, total 10000 bytes — emits exactly
percent 59. -/
theorem C5_witness :
    (0 < 10000 ∧ strContainsSub "Writing at 0x2710" "Writing at 0x" = true ∧
      pyIntHex (extractAddr "Writing at 0x2710") = some 10000 ∧
      ((4096 : Nat) : Int) ≤ 10000) ∧
    (esptoolLineStep 4096 10000 40 "Writing at 0x2710").2.map (fun e => e.percent) =
      [59] := by
  refine ⟨⟨by norm_num, by decide, by decide, by norm_num⟩, ?_⟩
  rw [(C5_percent_formula 4096 10000 40 "Writing at 0x2710" 10000 (by norm_num)
    (by decide) (by decide) (by norm_num)).1]
  decide

/-- Claim C5 counterexample: for the line `Writing at 0xfff...` with base
0x1000 and total 10000 bytes the code emits percent 0 (Python `int()`
truncates toward zero), while the claimed floor formula gives -1. -/
theorem C5_counterexample :
    (esptoolLineStep 4096 10000 40 "Writing at 0xfff...").2.map (fun e => e.percent) =
      [0] ∧
    min ((((4095 : Int) - 4096) * 100).fdiv 10000) 99 = -1 ∧ (0 : Int) ≠ -1 := by
  exact ⟨by decide, by decide, by decide⟩

/-- Claim C6 (corrected): a `Writing at 0x` line whose address portion fails
to parse never escapes the loop; in both backends it emits one event whose
percent is exactly the internal step counter plus 2, capped at 99.  That
counter is not the last emitted percent: it starts at 40 (esptool) / 0
(PlatformIO) and is advanced only by step-increment and address-fallback
emissions, never by size-based or fixed-percent emissions. -/
theorem C6_malformed_step (fa size : Nat) (p q : Int) (line : String)
    (hw : strContainsSub line "Writing at 0x" = true)
    (hfail : pyIntHex (extractAddr line) = none) :
    esptoolLineStep fa size p line =
      (min (p + 2) 99, [⟨min (p + 2) 99, "Writing firmware..."⟩]) ∧
    pioLineStep size q line =
      (min (q + 2) 99, [⟨min (q + 2) 99, "Writing firmware..."⟩]) := by
  constructor <;> simp [esptoolLineStep, pioLineStep, hw, hfail]

/-- Claim C6 witness: the malformed line `Writing at 0xzz...` at counter 40
emits exactly percent 42 and leaves the counter at 42. -/
theorem C6_witness :
    (strContainsSub "Writing at 0xzz..." "Writing at 0x" = true ∧
      pyIntHex (extractAddr "Writing at 0xzz...") = none) ∧
    esptoolLineStep 4096 10000 40 "Writing at 0xzz..." =
      (42, [⟨42, "Writing firmware..."⟩]) := by
  refine ⟨⟨by decide, by decide⟩, ?_⟩
  rw [(C6_malformed_step 4096 10000 40 0 "Writing at 0xzz..." (by decide) (by decide)).1]
  decide

/-- Claim C6 counterexample: in a session whose previous (size-based) event
already reported 50, a malformed line emits 42 = 40 + 2 (the internal
counter plus 2), not 52 = 50 + 2 as the claim requires. -/
theorem C6_counterexample :
    (esptoolLoop 65536 65536 ["Writing at 0x18000... (50 %)", "Writing at 0xzz..."] 40).2.map
      (fun e => e.percent) = [50, 42] ∧ (42 : Int) ≠ 50 + 2 := by
  exact ⟨by decide, by decide⟩

/-- Claim C7 (corrected): on a `Hash of data verified` line the fallback
esptool-subprocess backend emits exactly (95, "Verifying flash..."), but the
primary PlatformIO backend emits (100, "Flash completed!") — percent 100 with
a completion message, not 95 with a verifying message. -/
theorem C7_hash_verified_events (fa size : Nat) (p q : Int) :
    (esptoolLineStep fa size p "Hash of data verified").2 =
      [⟨95, "Verifying flash..."⟩] ∧
    (pioLineStep size q "Hash of data verified").2 =
      [⟨100, "Flash completed!"⟩] :=
  ⟨rfl, rfl⟩

/-- Claim C7 counterexample: in the PlatformIO path a `Hash of data verified`
line produces the event (100, "Flash completed!"), not a percent-95
verifying event. -/
theorem C7_counterexample :
    (pioLineStep 204800 0 "Hash of data verified").2 = [⟨100, "Flash completed!"⟩] ∧
    (pioLineStep 204800 0 "Hash of data verified").2 ≠ [⟨95, "Verifying flash..."⟩] := by
  exact ⟨by decide, by decide⟩

/-- Claim C9 (corrected): a successful erase through the esptool module emits
the percents [0, 20, 100], ending with the 100 completion event; but a
successful erase through the subprocess fallback emits only the initial 0
connecting event and returns success without any completion event. -/
theorem C9_erase_events (chip stderrOut errDesc : String) (el : Nat) :
    ((erase_flash true true chip 0 stderrOut errDesc el).1.map (fun e => e.percent) =
        [0, 20, 100] ∧
      (erase_flash true true chip 0 stderrOut errDesc el).2.success = true) ∧
    ((erase_flash false true chip 0 stderrOut errDesc el).1.map (fun e => e.percent) =
        [0] ∧
      (erase_flash false true chip 0 stderrOut errDesc el).2.success = true) :=
  ⟨⟨rfl, rfl⟩, ⟨rfl, rfl⟩⟩

/-- Claim C9 counterexample: the subprocess erase path resolves successfully
(exit code 0) yet its emitted events contain no percent-100 completion
event. -/
theorem C9_counterexample :
    (erase_flash false true "ESP32" 0 "" "" 3).2.success = true ∧
    ((erase_flash false true "ESP32" 0 "" "" 3).1.map (fun e => e.percent)).contains 100 =
      false :=
  ⟨rfl, rfl⟩

/-- Claim C10 (confirmed): each companion file is added to the PlatformIO
write command independently of the other; when exactly one of the supplied
bootloader / partition-table paths exists, the command carries two segments —
that companion at its fixed offset (0x0000 or 0x8000) plus the application at
0x10000 — and a supplied companion whose file does not exist is silently
omitted. -/
theorem C10_companion_independent (ex : String → Bool) (fw b pt : String)
    (hb : b ≠ "") (hpt : pt ≠ "") :
    (ex b = true → ex pt = false →
      pioSegs ex fw (some b) (some pt) = ["0x0000", b, "0x10000", fw]) ∧
    (ex b = false → ex pt = true →
      pioSegs ex fw (some b) (some pt) = ["0x8000", pt, "0x10000", fw]) := by
  constructor <;> intro hexb hexpt <;>
    simp [pioSegs, companionSeg, hexb, hexpt, hb, hpt]

/-- Claim C10 witness: with only the bootloader file existing, the command
segments are exactly bootloader at 0x0000 followed by the application at
0x10000; the non-existent partition path is dropped without error. -/
theorem C10_witness :
    (("boot.bin" : String) ≠ "" ∧ ("part.bin" : String) ≠ "") ∧
    pioSegs (fun s => s == "boot.bin") "fw.bin" (some "boot.bin") (some "part.bin") =
      ["0x0000", "boot.bin", "0x10000", "fw.bin"] := by
  refine ⟨⟨by decide, by decide⟩, ?_⟩
  exact (C10_companion_independent (fun s => s == "boot.bin") "fw.bin" "boot.bin"
    "part.bin" (by decide) (by decide)).1 (by decide) (by decide)
